import Mathlib

/-!
Shallow embedding of the process-spawning core of `src/subprocess.hpp`
(`subprocess` namespace of the C++ header): the `detail::Streams` descriptor
set and its close paths, the `Popen` launch state, the parent side of
`Popen::execute_process`, the child bootstrap `detail::Child::execute_child`,
the option setters of `detail::ArgumentDeducer`, and the small utilities
`util::read_atmost_n` and `util::wait_for_child_exit`.

File descriptors are modelled as `Int` with the sentinel `-1` standing for an
unset slot, exactly as in the header.  System calls are modelled by passing
their results in explicitly (a `fork` return value, a trace of `read` results,
a trace of `waitpid` results, the fresh descriptors returned by `dup`), and
the side effect of interest — which descriptors get closed — is returned as a
list of close events.
-/

namespace Spec2Proof

/-- `SP_MAX_ERR_BUF_SIZ`: the stack buffer size used for reading the child's
error report (line 28 of the header). -/
def SP_MAX_ERR_BUF_SIZ : Nat := 1024

/-- The six descriptor slots of `detail::Streams` (lines 360-369), each
either a valid descriptor or the sentinel `-1`, defaults as in the header. -/
structure Streams where
  write_to_child_ : Int := -1
  read_from_parent_ : Int := -1
  write_to_parent_ : Int := -1
  read_from_child_ : Int := -1
  err_write_ : Int := -1
  err_read_ : Int := -1
deriving DecidableEq, Repr

/-- `Streams::cleanup_fds` (lines 322-333): closes the three parent-owned
descriptors, each only when both ends of its pair are set.  The C++ body
performs `close` calls and assigns no field, so the state component of the
result is the input unchanged and the second component lists the descriptors
passed to `close`, in program order. -/
def cleanup_fds (s : Streams) : Streams × List Int :=
  (s,
    (if s.write_to_child_ ≠ -1 ∧ s.read_from_parent_ ≠ -1 then [s.write_to_child_] else []) ++
    (if s.write_to_parent_ ≠ -1 ∧ s.read_from_child_ ≠ -1 then [s.read_from_child_] else []) ++
    (if s.err_write_ ≠ -1 ∧ s.err_read_ ≠ -1 then [s.err_read_] else []))

/-- `Streams::close_parent_fds` (lines 335-340): closes each set parent-owned
descriptor; no field is assigned. -/
def close_parent_fds (s : Streams) : Streams × List Int :=
  (s,
    (if s.write_to_child_ ≠ -1 then [s.write_to_child_] else []) ++
    (if s.read_from_child_ ≠ -1 then [s.read_from_child_] else []) ++
    (if s.err_read_ ≠ -1 then [s.err_read_] else []))

/-- `Streams::close_child_fds` (lines 342-347): closes each set child-owned
descriptor; no field is assigned. -/
def close_child_fds (s : Streams) : Streams × List Int :=
  (s,
    (if s.write_to_parent_ ≠ -1 then [s.write_to_parent_] else []) ++
    (if s.read_from_parent_ ≠ -1 then [s.read_from_parent_] else []) ++
    (if s.err_write_ ≠ -1 then [s.err_write_] else []))

/-- The six slots of a `Streams` value as a list, parent/child pairs adjacent. -/
def slots (s : Streams) : List Int :=
  [s.write_to_child_, s.read_from_parent_, s.write_to_parent_,
   s.read_from_child_, s.err_write_, s.err_read_]

/-- The six slots hold pairwise distinct values, except that several slots may
share the sentinel `-1`. -/
def slotsDistinct (s : Streams) : Prop :=
  (slots s).Pairwise (fun a b => a = -1 ∨ a ≠ b)

/-- A concrete stream set with a stdin pipe configured: parent end 3,
child end 4. -/
def c4state : Streams := { write_to_child_ := 3, read_from_parent_ := 4 }

/-! ## Buffered stream handles: `detail::Streams::setup_comm_channels` -/

/-- The buffering discipline `setvbuf` is called with in
`setup_comm_channels` (lines 670-682): `_IONBF` (unbuffered) or `_IOFBF`
with an explicit block size. -/
inductive BufMode where
  | unbuffered
  | fullyBuffered (size : Int)
deriving DecidableEq, Repr

/-- The `switch (bufsiz_)` of `setup_comm_channels` (lines 672-681):
`case 0` and `case 1` select `_IONBF`; the `default` branch selects
`_IOFBF` with block size `bufsiz_`. -/
def setvbufMode (bufsiz : Int) : BufMode :=
  if bufsiz = 0 then .unbuffered
  else if bufsiz = 1 then .unbuffered
  else .fullyBuffered bufsiz

/-- The three caller-facing stream handles `input_`, `output_`, `error_`
(lines 350-352): each is either absent (`nullptr`) or wraps a descriptor
with the buffering mode applied to it. -/
structure CommHandles where
  input_ : Option (Int × BufMode) := none
  output_ : Option (Int × BufMode) := none
  error_ : Option (Int × BufMode) := none
deriving DecidableEq, Repr

/-- `Streams::setup_comm_channels` (lines 662-683): each set parent-owned
descriptor is wrapped by `fdopen` into a handle, and the `setvbuf` loop
applies the mode selected by `bufsiz_` to every non-null handle. -/
def setup_comm_channels (s : Streams) (bufsiz : Int) : CommHandles :=
  { input_ := if s.write_to_child_ ≠ -1 then some (s.write_to_child_, setvbufMode bufsiz) else none
    output_ := if s.read_from_child_ ≠ -1 then some (s.read_from_child_, setvbufMode bufsiz) else none
    error_ := if s.err_read_ ≠ -1 then some (s.err_read_, setvbufMode bufsiz) else none }

/-! ## Launch state: the `Popen` fields -/

/-- The configuration and process fields of `class Popen` (lines 421-437),
with the header's defaults.  `cargv_` models `std::vector<char*>`: an entry
is `some a` for a pointer to the bytes of argument string `a`, and `none`
for a null pointer. -/
structure PopenState where
  defer_process_start_ : Bool := false
  close_fds_ : Bool := false
  exe_name_ : String := ""
  cwd_ : String := ""
  env_ : List (String × String) := []
  args_ : String := ""
  vargs_ : List String := []
  cargv_ : List (Option String) := []
  child_pid_ : Int := -1
  stream_ : Streams := {}
deriving DecidableEq, Repr

/-- `Popen::populate_c_argv` (lines 452-456): pushes `&arg[0]` for each
argument token, in order, and nothing else — in particular no terminating
null pointer is pushed. -/
def populate_c_argv (vargs : List String) : List (Option String) :=
  vargs.map some

/-- The end of the `init_args` recursion (lines 440-442): after all options
are applied, `populate_c_argv()` fills `cargv_` from `vargs_`. -/
def init_args_final (p : PopenState) : PopenState :=
  { p with cargv_ := populate_c_argv p.vargs_ }

/-- The executable-resolution step of `Popen::execute_process`
(lines 478-480): an empty `exe_name_` is replaced by the first argument
token. -/
def resolve_exe (p : PopenState) : PopenState :=
  if p.exe_name_.length = 0 then { p with exe_name_ := p.vargs_.headD "" } else p

/-- What `Popen::execute_process` does up to and including the `fork`
branch on the failure side (lines 473-488).  `err_rd` and `err_wr` are the
two ends `util::pipe_cloexec` returned, `forkRet` the value `fork`
returned.  On `forkRet < 0` the function closes both pipe ends and throws
`OSError("fork failed", errno)`; otherwise control continues into the
child/parent branches.  The state component records the field writes the
code performed before branching: the executable resolution and the
assignment `child_pid_ = fork()`. -/
inductive ForkStep where
  | failed (state : PopenState) (closed : List Int) (err : String)
  | forked (state : PopenState)
deriving DecidableEq, Repr

/-- See `ForkStep`: the pre-fork writes and the fork-failure branch of
`Popen::execute_process` (lines 473-488). -/
def execute_process_fork (p : PopenState) (err_rd err_wr forkRet : Int) : ForkStep :=
  let p1 := resolve_exe p
  let p2 := { p1 with child_pid_ := forkRet }
  if forkRet < 0 then .failed p2 [err_rd, err_wr] "fork failed"
  else .forked p2

/-- The two ways `Popen::start_process` (lines 458-470) can go: the
`assert (0)` branch, or falling through to `execute_process()` — i.e. a
(possibly repeated) spawn. -/
inductive StartAction where
  | assertionFailure
  | spawn
deriving DecidableEq, Repr

/-- `Popen::start_process` (lines 458-470): the only guard is
`if (!defer_process_start_) { assert (0); return; }`; nothing records
whether a process was already started. -/
def start_process (p : PopenState) : StartAction :=
  if ¬ p.defer_process_start_ then .assertionFailure else .spawn

/-! ## Stream specifications: `input` / `output` / `error` and
`detail::ArgumentDeducer::set_option` -/

/-- The two channel fields shared by the argument structs `input`,
`output` and `error` (lines 216-268): `rd_ch_` and `wr_ch_`, both
defaulting to `-1`. -/
structure ChannelPair where
  rd_ch_ : Int := -1
  wr_ch_ : Int := -1
deriving DecidableEq, Repr

/-- `input(int fd)` (line 218): only the read channel is set. -/
def input_fd (fd : Int) : ChannelPair := { rd_ch_ := fd }

/-- `input(const char* filename)` (lines 220-224): the file is opened
read-only and the resulting descriptor stored in the read channel;
`openedFd` is the descriptor `open` returned. -/
def input_file (openedFd : Int) : ChannelPair := { rd_ch_ := openedFd }

/-- `input(IOTYPE typ)` with `typ == PIPE` (lines 225-228): both channels
are filled with the two ends `util::pipe_cloexec` returned. -/
def input_pipe (rd wr : Int) : ChannelPair := { rd_ch_ := rd, wr_ch_ := wr }

/-- `output(int fd)` (line 236): only the write channel is set. -/
def output_fd (fd : Int) : ChannelPair := { wr_ch_ := fd }

/-- `output(const char* filename)` (lines 238-242): append/create open,
descriptor stored in the write channel. -/
def output_file (openedFd : Int) : ChannelPair := { wr_ch_ := openedFd }

/-- `output(IOTYPE typ)` with `typ == PIPE` (lines 243-246). -/
def output_pipe (rd wr : Int) : ChannelPair := { rd_ch_ := rd, wr_ch_ := wr }

/-- `error(int fd)` (line 254): only the write channel is set. -/
def error_fd (fd : Int) : ChannelPair := { wr_ch_ := fd }

/-- `error(const char* filename)` (lines 256-260). -/
def error_file (openedFd : Int) : ChannelPair := { wr_ch_ := openedFd }

/-- `error(IOTYPE typ)` with `typ == PIPE` (lines 261-264). -/
def error_pipe (rd wr : Int) : ChannelPair := { rd_ch_ := rd, wr_ch_ := wr }

/-- `ArgumentDeducer::set_option(input&&)` (lines 555-558): the child-owned
slot is always assigned; the parent-owned slot only when the spec's write
channel is set. -/
def set_option_input (s : Streams) (inp : ChannelPair) : Streams :=
  let s1 := { s with read_from_parent_ := inp.rd_ch_ }
  if inp.wr_ch_ ≠ -1 then { s1 with write_to_child_ := inp.wr_ch_ } else s1

/-- `ArgumentDeducer::set_option(output&&)` (lines 560-563). -/
def set_option_output (s : Streams) (out : ChannelPair) : Streams :=
  let s1 := { s with write_to_parent_ := out.wr_ch_ }
  if out.rd_ch_ ≠ -1 then { s1 with read_from_child_ := out.rd_ch_ } else s1

/-- `ArgumentDeducer::set_option(error&&)` (lines 565-568). -/
def set_option_error (s : Streams) (err : ChannelPair) : Streams :=
  let s1 := { s with err_write_ := err.wr_ch_ }
  if err.rd_ch_ ≠ -1 then { s1 with err_read_ := err.rd_ch_ } else s1

/-! ## Child bootstrap: `detail::Child::execute_child` -/

/-- The defensive re-duplication at the start of `execute_child`
(lines 580-584): `write_to_parent_` is re-duplicated exactly when it is
`0`, and `err_write_` exactly when it is `0` or `1`.  `dupOut` and
`dupErr` are the fresh descriptors the two `dup` calls would return. -/
def normalize_child_fds (s : Streams) (dupOut dupErr : Int) : Streams :=
  let s1 := if s.write_to_parent_ = 0 then { s with write_to_parent_ := dupOut } else s
  if s1.err_write_ = 0 ∨ s1.err_write_ = 1 then { s1 with err_write_ := dupErr } else s1

/-- What one call of the lambda `_dup2_` (lines 588-602) does. -/
inductive Dup2Act where
  | clearCloexec (fd : Int)
  | dupTo (src dst : Int)
  | skip
deriving DecidableEq, Repr

/-- The lambda `_dup2_(fd, to_fd)` (lines 588-602): equal descriptors only
get their close-on-exec flag cleared; otherwise a set descriptor is
duplicated onto the target; an unset one is left alone. -/
def dup2_action (fd to_fd : Int) : Dup2Act :=
  if fd = to_fd then .clearCloexec fd
  else if fd ≠ -1 then .dupTo fd to_fd
  else .skip

/-- The three `_dup2_` calls of `execute_child` (lines 605-607), in program
order: stdin role onto 0, stdout role onto 1, stderr role onto 2. -/
def child_rewire_acts (s : Streams) : List Dup2Act :=
  [dup2_action s.read_from_parent_ 0,
   dup2_action s.write_to_parent_ 1,
   dup2_action s.err_write_ 2]

/-- The close condition of lines 610-617: a source descriptor is closed
after the rewiring exactly when it is set and greater than 2. -/
def close_source (fd : Int) : Prop := fd ≠ -1 ∧ fd > 2

instance (fd : Int) : Decidable (close_source fd) := by
  unfold close_source; infer_instance

/-- The closes of lines 610-617, in program order. -/
def child_rewire_closes (s : Streams) : List Int :=
  (if close_source s.read_from_parent_ then [s.read_from_parent_] else []) ++
  (if close_source s.write_to_parent_ then [s.write_to_parent_] else []) ++
  (if close_source s.err_write_ then [s.err_write_] else [])

/-! ## The child's environment: the `setenv` loop before `execvp`
(lines 637-644) -/

/-- An environment, as the child process carries it: an association list of
`NAME=value` entries, looked up by first occurrence. -/
abbrev Env := List (String × String)

/-- One `setenv(k, v, 1)` call: overwrite the first entry for `k` when one
exists, otherwise append a new entry. -/
def setenv1 : Env → String → String → Env
  | [], k, v => [(k, v)]
  | (k0, v0) :: rest, k, v =>
      if k0 = k then (k, v) :: rest else (k0, v0) :: setenv1 rest k v

/-- The `for (auto& kv : parent_->env_) setenv(...)` loop of
`execute_child` (lines 638-640), applied to the environment the child
inherited from the parent across `fork`. -/
def apply_env (parentEnv : Env) (m : Env) : Env :=
  m.foldl (fun e kv => setenv1 e kv.1 kv.2) parentEnv

/-- The environment the replaced image observes (lines 637-644): when the
configured mapping is non-empty, every mapped pair is `setenv`-ed into the
inherited environment and `execvp` keeps the resulting `environ`; when the
mapping is empty, the inherited environment is kept as is. -/
def child_env (parentEnv : Env) (m : Env) : Env :=
  if m.length ≠ 0 then apply_env parentEnv m else parentEnv

/-- The argument pair `execute_child` hands to `execvp` (lines 641-643):
the resolved executable name and the raw `cargv_` vector, unchanged. -/
def child_exec_call (p : PopenState) : String × List (Option String) :=
  (p.exe_name_, p.cargv_)

/-! ## `util::read_atmost_n`, `util::wait_for_child_exit` and the parent
branch of `Popen::execute_process` -/

/-- One result of the `read(fd, buf, read_upto)` call inside
`util::read_atmost_n`: an `EINTR` failure, another failure, or a delivered
chunk of bytes (the empty chunk is end-of-data). -/
inductive ReadEv where
  | interrupted
  | failed
  | chunk (data : List Char)
deriving DecidableEq, Repr

/-- A `read` result honours the request size when any chunk it delivers
fits within it: `read(fd, buf, read_upto)` returns at most `read_upto`
bytes. -/
def chunkSizeOk : ReadEv → Bool
  | ReadEv.chunk d => d.length ≤ SP_MAX_ERR_BUF_SIZ
  | _ => true

/-- A trace of `read` results is well-formed when every delivered chunk
fits the request size `SP_MAX_ERR_BUF_SIZ` the caller passes. -/
def validReadEvents (evs : List ReadEv) : Prop :=
  ∀ e ∈ evs, chunkSizeOk e = true

/-- Each `read` writes its chunk at the start of the caller's buffer
(`read(fd, buf, read_upto)` with `buf` never advanced), overwriting
whatever a previous chunk left there. -/
def overwriteFront (d buf : List Char) : List Char :=
  d ++ buf.drop d.length

/-- The NUL byte. -/
def nulChar : Char := Char.ofNat 0

/-- The zero-initialised `char err_buf[SP_MAX_ERR_BUF_SIZ] = {0,}` of
`execute_process` (line 509). -/
def emptyErrBuf : List Char := List.replicate SP_MAX_ERR_BUF_SIZ nulChar

/-- The C string a `char` buffer holds: its bytes up to the first NUL
(what `strlen` measures and what `CalledProcessError(err_buf)` copies). -/
def cstr (buf : List Char) : List Char :=
  buf.takeWhile (fun c => c ≠ nulChar)

/-- `util::read_atmost_n` (lines 121-142) over a trace of `read` results:
`-1` after a non-`EINTR` failure or once 50 `EINTR`s were already counted,
the accumulated byte count at end-of-data, and otherwise the chunk is
added to `rbytes` and written over the front of the buffer and the loop
continues.  `none` models the loop running beyond the supplied trace. -/
def read_atmost_n : List ReadEv → List Char → Int → Nat → Option (Int × List Char)
  | [], _, _, _ => none
  | ReadEv.interrupted :: rest, buf, rbytes, eintr_cnter =>
      if eintr_cnter ≥ 50 then some (-1, buf)
      else read_atmost_n rest buf rbytes (eintr_cnter + 1)
  | ReadEv.failed :: _, buf, _, _ => some (-1, buf)
  | ReadEv.chunk d :: rest, buf, rbytes, eintr_cnter =>
      if d.length = 0 then some (rbytes, buf)
      else read_atmost_n rest (overwriteFront d buf) (rbytes + d.length) eintr_cnter

/-- The total byte count `util::read_atmost_n` reports for a trace, started
on the zeroed error buffer as `execute_process` starts it. -/
def readTotal (evs : List ReadEv) : Option Int :=
  (read_atmost_n evs emptyErrBuf 0 0).map Prod.fst

/-- `util::wait_for_child_exit(pid)` (lines 144-157) over a trace of
`waitpid(pid, &status, WNOHANG)` results: `-1` breaks the loop and is
returned, `0` polls again, and any other result returns `pid`.  `none`
models the loop polling beyond the supplied trace. -/
def wait_for_child_exit (pid : Int) : List Int → Option Int
  | [] => none
  | r :: rest =>
      if r = -1 then some (-1)
      else if r = 0 then wait_for_child_exit pid rest
      else some pid

/-- How the parent branch of `execute_process` ends. -/
inductive LaunchResult where
  | success (handles : CommHandles)
  | calledProcessError (msg : List Char)
  | osFailure (op : String)
deriving DecidableEq, Repr

/-- The parent branch of `Popen::execute_process` (lines 502-530), after
`close(err_wr_pipe)` and `close_child_fds()`: read the error pipe into the
zeroed 1024-byte buffer; when the returned count is non-zero or the buffer
holds a non-empty C string, reap the child with `wait_for_child_exit` and
throw `OSError` on a `-1` reap or `CalledProcessError` with the buffer's C
string otherwise; when nothing was read and nothing is buffered, finalize
the stream set with `setup_comm_channels`.  (The `catch` block's
`cleanup_fds` re-throw is modelled separately.) -/
def execute_process_parent (s : Streams) (bufsiz : Int) (events : List ReadEv)
    (waits : List Int) (child_pid : Int) : Option LaunchResult :=
  match read_atmost_n events emptyErrBuf 0 0 with
  | none => none
  | some (read_bytes, buf) =>
      if read_bytes ≠ 0 ∨ cstr buf ≠ [] then
        match wait_for_child_exit child_pid waits with
        | none => none
        | some r =>
            if r = -1 then some (.osFailure "child exit")
            else some (.calledProcessError (cstr buf))
      else
        some (.success (setup_comm_channels s bufsiz))

/-! ## Concrete inputs used by counterexamples and witnesses -/

/-- A launch state whose executable name is unset: `vargs_ = ["ls"]`,
`exe_name_ = ""`. -/
def c3popen : PopenState := { vargs_ := ["ls"] }

/-- A deferred launch whose process has already been started (its pid was
recorded as 42). -/
def c5popen : PopenState := { defer_process_start_ := true, child_pid_ := 42 }

/-- A stream set whose stdout-role descriptor has the same number as the
error-channel write end (5 in the scenario of `c7_counterexample`). -/
def c7state : Streams := { write_to_parent_ := 5, err_write_ := 6 }

/-- A stream set with all six slots set and pairwise distinct: a stdin
pipe 3/4, a stdout pipe 5/6, a stderr pipe 7/8. -/
def c4distinct : Streams :=
  { write_to_child_ := 3, read_from_parent_ := 4, write_to_parent_ := 5,
    read_from_child_ := 6, err_write_ := 7, err_read_ := 8 }

/-- A read trace delivering 700 bytes twice and then end-of-data: every
chunk fits the 1024-byte request, the total does not. -/
def c2trace : List ReadEv :=
  [ReadEv.chunk (List.replicate 700 'a'), ReadEv.chunk (List.replicate 700 'b'),
   ReadEv.chunk []]

/-! # Theorems -/

/-! ## C1: the child's environment -/

theorem lookup_setenv1_self (e : Env) (k v : String) :
    (setenv1 e k v).lookup k = some v := by
  induction e with
  | nil => simp [setenv1, List.lookup]
  | cons q rest ih =>
      obtain ⟨k0, v0⟩ := q
      by_cases h : k0 = k
      · simp [setenv1, h, List.lookup]
      · have hb : (k == k0) = false := beq_eq_false_iff_ne.mpr fun hk => h hk.symm
        simp [setenv1, if_neg h, List.lookup, hb, ih]

theorem lookup_setenv1_ne (e : Env) (k v k' : String) (h : k' ≠ k) :
    (setenv1 e k v).lookup k' = e.lookup k' := by
  induction e with
  | nil =>
      have hb : (k' == k) = false := beq_eq_false_iff_ne.mpr h
      simp [setenv1, List.lookup, hb]
  | cons q rest ih =>
      obtain ⟨k0, v0⟩ := q
      by_cases hk : k0 = k
      · subst hk
        have hb : (k' == k0) = false := beq_eq_false_iff_ne.mpr h
        simp [setenv1, List.lookup, hb]
      · simp only [setenv1, if_neg hk, List.lookup]
        by_cases hq : k' = k0
        · simp [hq]
        · have hb : (k' == k0) = false := beq_eq_false_iff_ne.mpr hq
          simp [hb, ih]

theorem apply_env_cons (e : Env) (q : String × String) (rest : Env) :
    apply_env e (q :: rest) = apply_env (setenv1 e q.1 q.2) rest := rfl

theorem lookup_apply_env_not_mem (m : Env) (k : String) :
    ∀ e : Env, (∀ q ∈ m, q.1 ≠ k) → (apply_env e m).lookup k = e.lookup k := by
  induction m with
  | nil => intro e _; rfl
  | cons q rest ih =>
      intro e h
      rw [apply_env_cons,
        ih (setenv1 e q.1 q.2) fun r hr => h r (List.mem_cons_of_mem q hr)]
      exact lookup_setenv1_ne e q.1 q.2 k fun hk => h q (List.mem_cons_self q rest) hk.symm

theorem lookup_apply_env_mem (m : Env) (k v : String) :
    ∀ e : Env, (m.map Prod.fst).Nodup → (k, v) ∈ m →
      (apply_env e m).lookup k = some v := by
  induction m with
  | nil => intro e _ hmem; cases hmem
  | cons q rest ih =>
      intro e hnd hmem
      obtain ⟨qk, qv⟩ := q
      have hnd' : qk ∉ rest.map Prod.fst ∧ (rest.map Prod.fst).Nodup := by
        simpa only [List.map_cons, List.nodup_cons] using hnd
      rcases List.mem_cons.mp hmem with hq | hr
      · have hk : k = qk := congrArg Prod.fst hq
        have hv : v = qv := congrArg Prod.snd hq
        subst hk
        subst hv
        rw [apply_env_cons]
        have hnotin : ∀ r ∈ rest, r.1 ≠ k := by
          intro r hrr hrk
          exact hnd'.1 (hrk ▸ List.mem_map_of_mem Prod.fst hrr)
        rw [lookup_apply_env_not_mem rest k _ hnotin]
        exact lookup_setenv1_self e k v
      · rw [apply_env_cons]
        exact ih (setenv1 e qk qv) hnd'.2 hr

/-- Claim C1 (corrected), counterexample: with parent environment
`HOME=/root` and the non-empty configured mapping `X=1` — a mapping whose
keys do not include `HOME` — the environment the child's replaced image
observes still maps `HOME` to `/root`.  The `setenv` loop of
`execute_child` (lines 637-644) overlays the mapping onto the inherited
environment and never removes inherited variables, so a parent variable
absent from the mapping stays visible to the child, contradicting the
claim that the mapping replaces the child's entire environment. -/
theorem c1_counterexample :
    (([("X", "1")] : Env).all fun q => q.1 ≠ "HOME") ∧
    ([("X", "1")] : Env) ≠ [] ∧
    (child_env [("HOME", "/root")] [("X", "1")]).lookup "HOME" = some "/root" := by
  refine ⟨by decide, by decide, ?_⟩
  rfl

/-- Claim C1 (corrected, amended): if a non-empty environment mapping with
unique keys is configured, the child observes every mapped key with its
mapped value; but the mapping is overlaid onto, not substituted for, the
inherited environment: a variable of the parent's environment whose key is
absent from the mapping keeps its parent value and stays visible to the
child. -/
theorem c1_env_overlay (parentEnv m : Env)
    (hnd : (m.map Prod.fst).Nodup) (hne : m ≠ []) :
    (∀ k v, (k, v) ∈ m → (child_env parentEnv m).lookup k = some v) ∧
    (∀ k, (∀ q ∈ m, q.1 ≠ k) →
      (child_env parentEnv m).lookup k = parentEnv.lookup k) := by
  have hlen : m.length ≠ 0 := by
    intro h
    exact hne (List.eq_nil_of_length_eq_zero h)
  constructor
  · intro k v hmem
    rw [child_env, if_pos hlen]
    exact lookup_apply_env_mem m k v parentEnv hnd hmem
  · intro k hk
    rw [child_env, if_pos hlen]
    exact lookup_apply_env_not_mem m k parentEnv hk

/-- Concrete instantiation of `c1_env_overlay`: mapping `X=1` over parent
environment `HOME=/root`. -/
theorem c1_env_overlay_witness :
    (child_env [("HOME", "/root")] [("X", "1")]).lookup "X" = some "1" ∧
    (child_env [("HOME", "/root")] [("X", "1")]).lookup "HOME" = some "/root" := by
  have h := c1_env_overlay [("HOME", "/root")] [("X", "1")] (by decide) (by decide)
  exact ⟨h.1 "X" "1" (by decide), h.2 "HOME" (by decide)⟩

/-! ## C2: the parent side of the launch protocol -/

theorem takeWhile_append_of_pos (p : Char → Bool) (d t : List Char)
    (h : ∀ c ∈ d, p c = true) :
    (d ++ t).takeWhile p = d ++ t.takeWhile p := by
  induction d with
  | nil => simp
  | cons c rest ih =>
      simp only [List.cons_append, List.takeWhile]
      rw [h c (List.mem_cons_self c rest)]
      simp [ih fun x hx => h x (List.mem_cons_of_mem c hx)]

theorem takeWhile_ne_nul_replicate (n : Nat) :
    (List.replicate n nulChar).takeWhile (fun c => c ≠ nulChar) = [] := by
  cases n with
  | zero => rfl
  | succ m => simp [List.replicate_succ, List.takeWhile]

theorem drop_replicate_nul (k n : Nat) :
    (List.replicate n nulChar).drop k = List.replicate (n - k) nulChar := by
  induction n generalizing k with
  | zero => simp
  | succ m ih =>
      cases k with
      | zero => simp
      | succ j => simp [List.replicate_succ, ih, Nat.succ_sub_succ]

theorem cstr_overwriteFront (d : List Char) (hn : ∀ c ∈ d, c ≠ nulChar) :
    cstr (overwriteFront d emptyErrBuf) = d := by
  unfold cstr overwriteFront emptyErrBuf
  rw [takeWhile_append_of_pos _ d _ fun c hc => decide_eq_true (hn c hc)]
  rw [drop_replicate_nul, takeWhile_ne_nul_replicate, List.append_nil]

set_option maxRecDepth 10000 in
/-- Claim C2 (corrected), counterexample: the trace `c2trace` delivers two
700-byte chunks before end-of-data — each `read` call honours the
1024-byte request — yet `util::read_atmost_n` keeps looping after the
first chunk and reports 1400 bytes read in total, so the parent reads more
than 1024 bytes from the error channel's read end, contradicting the
claim's "reads at most 1024 bytes". -/
theorem c2_counterexample :
    validReadEvents c2trace ∧
    readTotal c2trace = some 1400 ∧
    ¬ (1400 : Int) ≤ (SP_MAX_ERR_BUF_SIZ : Int) := by
  refine ⟨?_, ?_, by decide⟩
  · unfold validReadEvents
    decide
  · rfl

/-- Claim C2 (corrected, amended): the parent reads from the error
channel's read end in chunks of at most 1024 bytes until end-of-data (the
total may exceed 1024, later chunks overwriting the buffer).  Whatever the
trace, once `read_atmost_n` returns: if zero bytes were read and nothing
is buffered, the launch is treated as success and the parent-owned
descriptors are finalized into buffered stream handles; if any payload is
present, the parent first reaps the child with the non-blocking
`waitpid`/`WNOHANG` poll loop `wait_for_child_exit` and (when reaping
succeeds) raises `CalledProcessError` carrying the buffer's C string —
which, for a NUL-free payload delivered as the last chunk, is exactly the
payload the child wrote. -/
theorem c2_protocol (s : Streams) (bufsiz : Int) (events : List ReadEv)
    (waits : List Int) (pid : Int) (n : Int) (buf : List Char)
    (hread : read_atmost_n events emptyErrBuf 0 0 = some (n, buf))
    (hwait : wait_for_child_exit pid waits = some pid)
    (hpid : pid ≠ -1) :
    ((n = 0 ∧ cstr buf = []) →
      execute_process_parent s bufsiz events waits pid =
        some (LaunchResult.success (setup_comm_channels s bufsiz))) ∧
    ((n ≠ 0 ∨ cstr buf ≠ []) →
      execute_process_parent s bufsiz events waits pid =
        some (LaunchResult.calledProcessError (cstr buf))) ∧
    (∀ d, buf = overwriteFront d emptyErrBuf → (∀ c ∈ d, c ≠ nulChar) →
      cstr buf = d) := by
  refine ⟨?_, ?_, ?_⟩
  · rintro ⟨h0, hempty⟩
    unfold execute_process_parent
    rw [hread]
    simp [h0, hempty]
  · intro hne
    unfold execute_process_parent
    rw [hread]
    simp only []
    rw [if_pos hne, hwait]
    simp [hpid]
  · intro d hd hnl
    rw [hd]
    exact cstr_overwriteFront d hnl

/-- Concrete instantiation of `c2_protocol`: a child that wrote the single
byte `x` before dying; the poll loop sees one spurious `0` before reaping
pid 7; the launch raises `CalledProcessError` with message `x`. -/
theorem c2_protocol_witness :
    execute_process_parent {} 0 [ReadEv.chunk ['x'], ReadEv.chunk []] [0, 5] 7 =
      some (LaunchResult.calledProcessError ['x']) := by
  have h := c2_protocol {} 0 [ReadEv.chunk ['x'], ReadEv.chunk []] [0, 5] 7 1
      (overwriteFront ['x'] emptyErrBuf) (by rfl) (by decide) (by decide)
  have h2 := h.2.1 (Or.inl (by decide))
  have h3 := h.2.2 ['x'] rfl (by decide)
  rw [h2, h3]

/-! ## C3: fork failure -/

/-- Claim C3 (corrected), counterexample: launching `c3popen` (arguments
`["ls"]`, executable name unset) with a failing `fork` does close both
error-channel ends and raise an OS error, but the launcher's state is not
left exactly as before the call: `execute_process` resolved the empty
`exe_name_` to `"ls"` (lines 478-480) before forking, and that write
survives the failure. -/
theorem c3_counterexample :
    execute_process_fork c3popen 5 6 (-1) =
      ForkStep.failed { c3popen with exe_name_ := "ls" } [5, 6] "fork failed" ∧
    ({ c3popen with exe_name_ := "ls" } : PopenState) ≠ c3popen := by
  refine ⟨rfl, ?_⟩
  intro h
  have : ({ c3popen with exe_name_ := "ls" } : PopenState).exe_name_ = c3popen.exe_name_ :=
    congrArg PopenState.exe_name_ h
  exact absurd this (by decide)

/-- Claim C3 (corrected, amended): if process duplication fails, both ends
of the error channel are closed and an OS error is raised, and no process
exists (the recorded pid is the sentinel `-1`); every configuration field
is left as it was before the call, except that an unset executable name
has been resolved to the first argument token (a write performed before
the `fork` and not rolled back). -/
theorem c3_fork_failure (p : PopenState) (err_rd err_wr : Int) :
    ∃ q, execute_process_fork p err_rd err_wr (-1) =
        ForkStep.failed q [err_rd, err_wr] "fork failed" ∧
      q.child_pid_ = -1 ∧
      q.defer_process_start_ = p.defer_process_start_ ∧
      q.close_fds_ = p.close_fds_ ∧
      q.cwd_ = p.cwd_ ∧
      q.env_ = p.env_ ∧
      q.args_ = p.args_ ∧
      q.vargs_ = p.vargs_ ∧
      q.cargv_ = p.cargv_ ∧
      q.stream_ = p.stream_ ∧
      (p.exe_name_ ≠ "" → q.exe_name_ = p.exe_name_) ∧
      (p.exe_name_ = "" → q.exe_name_ = p.vargs_.headD "") := by
  refine ⟨{ resolve_exe p with child_pid_ := -1 }, ?_, ?_⟩
  · unfold execute_process_fork
    simp
  · unfold resolve_exe
    by_cases h : p.exe_name_.length = 0
    · have he : p.exe_name_ = "" := by
        cases hs : p.exe_name_ with
        | mk data =>
            rw [hs] at h
            simp [String.length] at h
            simp [h]
      simp [h, he]
    · have he : p.exe_name_ ≠ "" := by
        intro hh
        rw [hh] at h
        simp at h
      simp [h, he]

/-! ## C4: descriptor close paths -/

/-- Claim C4 (corrected), counterexample: on the stream set `c4state`
(stdin pipe with parent end 3 and child end 4), the failure-cleanup path
closes descriptor 3 but leaves the slot holding 3 instead of marking it
unset with the sentinel; consequently a later run of the parent-side close
path closes the same descriptor 3 a second time.  `Streams::cleanup_fds`,
`close_parent_fds` and `close_child_fds` (lines 322-347) assign no field
after closing. -/
theorem c4_counterexample :
    (cleanup_fds c4state).2 = [3] ∧
    (cleanup_fds c4state).1.write_to_child_ = 3 ∧
    (close_parent_fds (cleanup_fds c4state).1).2 = [3] := by
  decide

/-- Claim C4 (corrected, amended): no close path marks a closed slot unset
(the three close members assign no field, so the state is returned
unchanged); on the executed parent-side sequence — child-side close
followed by failure cleanup — each descriptor is still closed at most once,
but only because the two paths close disjoint slot sets, and only as long
as the set slots hold pairwise distinct descriptors. -/
theorem mem_ite_singleton {a x : Int} {c : Prop} [Decidable c] :
    a ∈ (if c then [x] else []) ↔ c ∧ a = x := by
  split_ifs with h <;> simp [h]

theorem nodup_three (a b c : Int) (A B C : Prop)
    [Decidable A] [Decidable B] [Decidable C]
    (hab : A → B → a ≠ b) (hac : A → C → a ≠ c) (hbc : B → C → b ≠ c) :
    ((if A then [a] else []) ++ (if B then [b] else []) ++
      (if C then [c] else [])).Nodup := by
  split_ifs <;> simp_all

theorem close_child_fds_nodup (s : Streams)
    (h23 : s.read_from_parent_ = -1 ∨ s.read_from_parent_ ≠ s.write_to_parent_)
    (h25 : s.read_from_parent_ = -1 ∨ s.read_from_parent_ ≠ s.err_write_)
    (h35 : s.write_to_parent_ = -1 ∨ s.write_to_parent_ ≠ s.err_write_) :
    ((close_child_fds s).2).Nodup := by
  unfold close_child_fds
  simp only
  exact nodup_three s.write_to_parent_ s.read_from_parent_ s.err_write_
    (s.write_to_parent_ ≠ -1) (s.read_from_parent_ ≠ -1) (s.err_write_ ≠ -1)
    (fun _ hB => by omega) (fun hA _ => by omega) (fun hB _ => by omega)

theorem cleanup_fds_nodup (s : Streams)
    (h14 : s.write_to_child_ = -1 ∨ s.write_to_child_ ≠ s.read_from_child_)
    (h16 : s.write_to_child_ = -1 ∨ s.write_to_child_ ≠ s.err_read_)
    (h46 : s.read_from_child_ = -1 ∨ s.read_from_child_ ≠ s.err_read_) :
    ((cleanup_fds s).2).Nodup := by
  unfold cleanup_fds
  simp only
  exact nodup_three s.write_to_child_ s.read_from_child_ s.err_read_
    (s.write_to_child_ ≠ -1 ∧ s.read_from_parent_ ≠ -1)
    (s.write_to_parent_ ≠ -1 ∧ s.read_from_child_ ≠ -1)
    (s.err_write_ ≠ -1 ∧ s.err_read_ ≠ -1)
    (fun hA _ => by omega) (fun hA _ => by omega) (fun hB _ => by omega)

theorem closes_disjoint (s : Streams)
    (h12 : s.write_to_child_ = -1 ∨ s.write_to_child_ ≠ s.read_from_parent_)
    (h13 : s.write_to_child_ = -1 ∨ s.write_to_child_ ≠ s.write_to_parent_)
    (h15 : s.write_to_child_ = -1 ∨ s.write_to_child_ ≠ s.err_write_)
    (h24 : s.read_from_parent_ = -1 ∨ s.read_from_parent_ ≠ s.read_from_child_)
    (h26 : s.read_from_parent_ = -1 ∨ s.read_from_parent_ ≠ s.err_read_)
    (h34 : s.write_to_parent_ = -1 ∨ s.write_to_parent_ ≠ s.read_from_child_)
    (h36 : s.write_to_parent_ = -1 ∨ s.write_to_parent_ ≠ s.err_read_)
    (h45 : s.read_from_child_ = -1 ∨ s.read_from_child_ ≠ s.err_write_)
    (h56 : s.err_write_ = -1 ∨ s.err_write_ ≠ s.err_read_) :
    List.Disjoint (close_child_fds s).2 (cleanup_fds s).2 := by
  intro a ha hb
  unfold close_child_fds at ha
  unfold cleanup_fds at hb
  simp only [List.mem_append, mem_ite_singleton] at ha hb
  omega

theorem c4_close_paths (s : Streams) (h : slotsDistinct s) :
    (close_child_fds s).1 = s ∧
    (cleanup_fds s).1 = s ∧
    (close_parent_fds s).1 = s ∧
    ((close_child_fds s).2 ++ (cleanup_fds s).2).Nodup := by
  refine ⟨rfl, rfl, rfl, ?_⟩
  unfold slotsDistinct slots at h
  simp only [List.pairwise_cons, List.forall_mem_cons, List.forall_mem_nil,
    List.Pairwise.nil, and_true] at h
  obtain ⟨⟨h12, h13, h14, h15, h16⟩, ⟨h23, h24, h25, h26⟩,
    ⟨h34, h35, h36⟩, ⟨h45, h46⟩, h56⟩ := h
  rw [List.nodup_append]
  refine ⟨close_child_fds_nodup s h23 h25 h35,
    cleanup_fds_nodup s h14 h16.1 h46.1,
    closes_disjoint s h12 h13 h15 h24 h26.1 h34 h36.1 h45 h56.1.1⟩

/-- Concrete instantiation of `c4_close_paths` on `c4distinct`. -/
theorem c4_close_paths_witness :
    ((close_child_fds c4distinct).2 ++ (cleanup_fds c4distinct).2).Nodup := by
  exact (c4_close_paths c4distinct
    (by unfold slotsDistinct slots c4distinct
        simp [List.pairwise_cons])).2.2.2

/-! ## C5: the explicit launch trigger -/

/-- Claim C5 (corrected), counterexample: `c5popen` is a deferred launch
whose process already started (pid 42 recorded); calling the trigger again
does not fail the `assert (0)` contract check — `start_process`
(lines 458-470) only tests `defer_process_start_`, which is still true, so
the call falls through to `execute_process()` and performs a second
spawn. -/
theorem c5_counterexample :
    c5popen.child_pid_ = 42 ∧
    c5popen.defer_process_start_ = true ∧
    start_process c5popen = StartAction.spawn ∧
    start_process c5popen ≠ StartAction.assertionFailure := by
  decide

/-- Claim C5 (corrected, amended): calling the explicit launch trigger
when defer-start was not requested fails the contract via `assert (0)` — a
fatal programming error, not a recoverable runtime error; but nothing
records whether the process already started, so the assertion fires
exactly when defer-start is false, and a second call after a deferred
launch already started falls through to a second spawn rather than a
contract violation. -/
theorem c5_start_guard (p : PopenState) :
    (p.defer_process_start_ = false → start_process p = StartAction.assertionFailure) ∧
    (p.defer_process_start_ = true → start_process p = StartAction.spawn) := by
  unfold start_process
  constructor <;> intro h <;> simp [h]

/-! ## C6: the buffering selector -/

/-- Claim C6 (confirmed): the buffering selector values 0 and 1 both yield
unbuffered stream handles; any other positive value `n` yields fixed-size
block-buffered handles with block size `n`; and the selected mode is
applied to every finalized stream handle by the `setvbuf` loop of
`setup_comm_channels`. -/
theorem c6_buffering (s : Streams) (n : Int) :
    setvbufMode 0 = BufMode.unbuffered ∧
    setvbufMode 1 = BufMode.unbuffered ∧
    (0 < n → n ≠ 1 → setvbufMode n = BufMode.fullyBuffered n) ∧
    (∀ fd m, (setup_comm_channels s n).input_ = some (fd, m) → m = setvbufMode n) ∧
    (∀ fd m, (setup_comm_channels s n).output_ = some (fd, m) → m = setvbufMode n) ∧
    (∀ fd m, (setup_comm_channels s n).error_ = some (fd, m) → m = setvbufMode n) := by
  refine ⟨rfl, rfl, ?_, ?_, ?_, ?_⟩
  · intro hpos h1
    have h0 : n ≠ 0 := by omega
    unfold setvbufMode
    rw [if_neg h0, if_neg h1]
  all_goals
    intro fd m hm
    unfold setup_comm_channels at hm
    simp only at hm
    split_ifs at hm
    simp_all

/-! ## C7: the child's descriptor normalization -/

/-- Claim C7 (corrected), counterexample: `c7state` has its stdout-role
descriptor equal to 5 — the number of the error-channel write end in this
scenario — and its stderr-role descriptor equal to 6; the normalization
step of `execute_child` (lines 580-584) re-duplicates nothing, because its
conditions compare against the constants 0 and 1 and never against the
error-channel descriptor number (which `normalize_child_fds`, like the
code, does not even receive).  A stream-role descriptor colliding with the
error-channel number is left in place, contradicting the claim. -/
theorem c7_counterexample :
    normalize_child_fds c7state 8 9 = c7state ∧
    (normalize_child_fds c7state 8 9).write_to_parent_ = 5 ∧
    (normalize_child_fds { err_write_ := 1 } 8 9).err_write_ = 9 := by
  decide

/-- Claim C7 (corrected, amended): before duplicating the configured
stream descriptors onto 0/1/2, the child re-duplicates the stdout-role
descriptor exactly when its value is 0, and the stderr-role descriptor
exactly when its value is 0 or 1 — i.e. when it collides with a *target*
number that an earlier duplication writes onto, so that the earlier
`dup2` calls onto 0 and 1 cannot clobber it; the stdin-role descriptor is
never re-duplicated, and no condition involves the error-channel
descriptor number.  Fresh duplicates avoiding 0 and 1 leave the
normalized stdout-role slot different from 0 and the stderr-role slot
different from 0 and 1. -/
theorem c7_normalize (s : Streams) (dupOut dupErr : Int)
    (h1 : dupOut ≠ 0) (h2 : dupErr ≠ 0) (h3 : dupErr ≠ 1) :
    (normalize_child_fds s dupOut dupErr).read_from_parent_ = s.read_from_parent_ ∧
    (normalize_child_fds s dupOut dupErr).write_to_parent_ =
      (if s.write_to_parent_ = 0 then dupOut else s.write_to_parent_) ∧
    (normalize_child_fds s dupOut dupErr).err_write_ =
      (if s.err_write_ = 0 ∨ s.err_write_ = 1 then dupErr else s.err_write_) ∧
    (normalize_child_fds s dupOut dupErr).write_to_parent_ ≠ 0 ∧
    (normalize_child_fds s dupOut dupErr).err_write_ ≠ 0 ∧
    (normalize_child_fds s dupOut dupErr).err_write_ ≠ 1 := by
  unfold normalize_child_fds
  split_ifs <;> simp_all

/-- Concrete instantiation of `c7_normalize`: a stream set whose stdout
role sits on descriptor 0 and whose stderr role sits on descriptor 1,
with `dup` returning 8 and 9. -/
theorem c7_normalize_witness :
    (normalize_child_fds { write_to_parent_ := 0, err_write_ := 1 } 8 9).write_to_parent_ = 8 ∧
    (normalize_child_fds { write_to_parent_ := 0, err_write_ := 1 } 8 9).err_write_ = 9 := by
  have h := c7_normalize { write_to_parent_ := 0, err_write_ := 1 } 8 9
    (by decide) (by decide) (by decide)
  refine ⟨?_, ?_⟩
  · rw [h.2.1]
    decide
  · rw [h.2.2.1]
    decide

/-! ## C8: the child's descriptor rewiring -/

/-- Claim C8 (confirmed): for each of the three stream roles, the child's
`_dup2_` lambda only clears the close-on-exec flag (and performs no
duplication) when the source descriptor equals its target; otherwise a set
source is duplicated onto the target and an unset one is skipped; and the
original source descriptor is closed afterwards if and only if it is set
and greater than 2 — a condition equivalent to being greater than 2. -/
theorem c8_rewire (fd t : Int) (s : Streams) :
    (fd = t → dup2_action fd t = Dup2Act.clearCloexec fd) ∧
    (fd ≠ t → fd ≠ -1 → dup2_action fd t = Dup2Act.dupTo fd t) ∧
    (fd ≠ t → fd = -1 → dup2_action fd t = Dup2Act.skip) ∧
    (close_source fd ↔ fd > 2) ∧
    (child_rewire_acts s =
      [dup2_action s.read_from_parent_ 0, dup2_action s.write_to_parent_ 1,
       dup2_action s.err_write_ 2]) ∧
    (child_rewire_closes s =
      (if s.read_from_parent_ > 2 then [s.read_from_parent_] else []) ++
      (if s.write_to_parent_ > 2 then [s.write_to_parent_] else []) ++
      (if s.err_write_ > 2 then [s.err_write_] else [])) := by
  refine ⟨?_, ?_, ?_, ?_, rfl, ?_⟩
  · intro h
    unfold dup2_action
    rw [if_pos h]
  · intro h h'
    unfold dup2_action
    rw [if_neg h, if_pos h']
  · intro h h'
    unfold dup2_action
    rw [if_neg h, if_neg (by simp [h'])]
  · unfold close_source
    constructor
    · exact fun h => h.2
    · exact fun h => ⟨by omega, h⟩
  · have e : ∀ x : Int, (x ≠ -1 ∧ x > 2) ↔ x > 2 :=
      fun x => ⟨And.right, fun h => ⟨by omega, h⟩⟩
    unfold child_rewire_closes close_source
    simp only [e]

/-- Concrete instantiation of `c8_rewire`: a stdin pipe end on descriptor
4 (duplicated onto 0, then closed), a stdout role already on descriptor 1
(only the close-on-exec flag cleared, not closed), stderr unset. -/
theorem c8_rewire_witness :
    child_rewire_acts { read_from_parent_ := 4, write_to_parent_ := 1 } =
      [Dup2Act.dupTo 4 0, Dup2Act.clearCloexec 1, Dup2Act.skip] ∧
    child_rewire_closes { read_from_parent_ := 4, write_to_parent_ := 1 } = [4] := by
  have h := c8_rewire 4 0 { read_from_parent_ := 4, write_to_parent_ := 1 }
  have h1 := h.2.1 (by decide) (by decide)
  have h2 := h.2.2.2.2.2
  refine ⟨?_, ?_⟩
  · rw [h.2.2.2.2.1]
    decide
  · rw [h2]
    decide

/-! ## C9: stream specifications and the slot-pairing invariant -/

/-- Claim C9 (corrected), counterexample: applying the stream
specification "stdin from external descriptor 3" to the default stream
set, `set_option(input&&)` (lines 555-558) sets the child-owned slot
`read_from_parent_` to 3 but leaves the parent-owned partner slot
`write_to_child_` unset, so the two slots of the stdin pair are neither
both set nor both unset. -/
theorem c9_counterexample :
    (set_option_input {} (input_fd 3)).read_from_parent_ = 3 ∧
    (set_option_input {} (input_fd 3)).write_to_child_ = -1 := by
  decide

/-- Claim C9 (corrected, amended): a pipe specification (both channel ends
valid) sets both the parent-owned and the child-owned slot of its role's
pair; a file or external-descriptor specification sets only the child-owned
slot and leaves the parent-owned partner slot unchanged (hence unset when
it was unset, as in a freshly constructed stream set).  File
specifications carry the same channel shape as external-descriptor ones. -/
theorem c9_slot_pairing (s : Streams) (rd wr fd : Int)
    (hrd : rd ≠ -1) (hwr : wr ≠ -1) :
    ((set_option_input s (input_pipe rd wr)).read_from_parent_ = rd ∧
     (set_option_input s (input_pipe rd wr)).write_to_child_ = wr) ∧
    ((set_option_output s (output_pipe rd wr)).write_to_parent_ = wr ∧
     (set_option_output s (output_pipe rd wr)).read_from_child_ = rd) ∧
    ((set_option_error s (error_pipe rd wr)).err_write_ = wr ∧
     (set_option_error s (error_pipe rd wr)).err_read_ = rd) ∧
    ((set_option_input s (input_fd fd)).read_from_parent_ = fd ∧
     (set_option_input s (input_fd fd)).write_to_child_ = s.write_to_child_) ∧
    ((set_option_output s (output_fd fd)).write_to_parent_ = fd ∧
     (set_option_output s (output_fd fd)).read_from_child_ = s.read_from_child_) ∧
    ((set_option_error s (error_fd fd)).err_write_ = fd ∧
     (set_option_error s (error_fd fd)).err_read_ = s.err_read_) ∧
    input_file fd = input_fd fd ∧
    output_file fd = output_fd fd ∧
    error_file fd = error_fd fd := by
  unfold set_option_input set_option_output set_option_error
    input_pipe output_pipe error_pipe input_fd output_fd error_fd
    input_file output_file error_file
  simp_all

/-- Concrete instantiation of `c9_slot_pairing`: a pipe with read end 3
and write end 4, and an external descriptor 7, applied to the default
stream set. -/
theorem c9_slot_pairing_witness :
    (set_option_input {} (input_pipe 3 4)).read_from_parent_ = 3 ∧
    (set_option_input {} (input_pipe 3 4)).write_to_child_ = 4 ∧
    (set_option_output {} (output_fd 7)).write_to_parent_ = 7 ∧
    (set_option_output {} (output_fd 7)).read_from_child_ = -1 := by
  have h := c9_slot_pairing {} 3 4 7 (by decide) (by decide)
  exact ⟨h.1.1, h.1.2, h.2.2.2.2.1.1, h.2.2.2.2.1.2⟩

/-! ## C10: the C argument vector -/

/-- Claim C10 (confirmed): `populate_c_argv` builds exactly one pointer
per configured argument token, in the configured order, appends no
terminating null pointer, and `execute_child` hands the vector to `execvp`
unchanged. -/
theorem c10_argv (vargs : List String) (i : Nat) (p : PopenState) :
    (populate_c_argv vargs).length = vargs.length ∧
    (populate_c_argv vargs)[i]? = vargs[i]?.map some ∧
    none ∉ populate_c_argv vargs ∧
    child_exec_call (init_args_final p) = (p.exe_name_, populate_c_argv p.vargs_) := by
  refine ⟨?_, ?_, ?_, rfl⟩
  · simp [populate_c_argv]
  · simp [populate_c_argv]
  · unfold populate_c_argv
    simp

end Spec2Proof
